import Mathlib

/-!
Shallow embedding of the order / inventory workflow of the
Anokhi-Chikankari admin dashboard.

The embedded code lives in:
  * `src/pages/Orders.jsx`   — `confirmStatusUpdate`, `renderActionButtons`,
    `generateManifest`;
  * `src/pages/AddProduct.jsx` — `addToCart`, `removeFromCart`, `updateQty`,
    `cartTotal`, `handleCreateOrder`;
  * `src/pages/EditProduct.jsx` — `handleCategorySale`.

Database rows become Lean structures; the `product_variants.stock_quantity`
column becomes a total map from variant id to an integer; a supabase
`update(...).eq('id', v)` becomes a pointwise functional update.  JavaScript
`null`-able text fields are modelled as `String` (with `""` playing the role
of the falsy value, as in the `!customer.name` and `note.trim()` checks of
the source).  Toast-and-return early exits become `Except` errors.
-/

namespace Anokhi

/-- Order status enum used by `orders.status` (`src/pages/Orders.jsx`). -/
inductive Status where
  | pending
  | confirmed
  | processing
  | shipped
  | delivered
  | cancelled
deriving DecidableEq, Repr, Fintype

/-- `status.toUpperCase()` as used when appending a note
(`Orders.jsx` line 223). -/
def Status.upper : Status → String
  | .pending => "PENDING"
  | .confirmed => "CONFIRMED"
  | .processing => "PROCESSING"
  | .shipped => "SHIPPED"
  | .delivered => "DELIVERED"
  | .cancelled => "CANCELLED"

/-- The stock column of `product_variants`: variant id ↦ `stock_quantity`. -/
def Stock : Type := Nat → Int

/-- `supabase.from('product_variants').update({stock_quantity: q}).eq('id', v)`:
pointwise update of the stock map. -/
def setStock (st : Stock) (v : Nat) (q : Int) : Stock :=
  fun x => if x = v then q else st x

/-- One row of `order_items` as fetched by `Orders.jsx` (`id, quantity,
price_at_purchase, variant:product_variants(...)`); the joined variant can be
absent (`item.variant?.id`), hence the `Option`. -/
structure OrderItem where
  variant : Option Nat
  quantity : Int
  price_at_purchase : ℚ
deriving DecidableEq, Repr

/-- Structured shipping address (`AddProduct.jsx` `address` state). -/
structure Address where
  street : String
  city : String
  state : String
  zip : String
  country : String
deriving DecidableEq, Repr

/-- One row of `orders` together with its joined line items, as held in the
`orders` React state of `Orders.jsx`. -/
structure Order where
  id : Nat
  order_number : Nat
  customer_name : String
  customer_phone : String
  shipping_address : Address
  payment_method : String
  status : Status
  total_amount : ℚ
  notes : String
  created_at : String
  items : List OrderItem
deriving DecidableEq, Repr

/-- The stock-restoration loop of `confirmStatusUpdate`
(`Orders.jsx` lines 209–217): for each item whose joined variant exists,
read the variant's current stock and write back `stock + item.quantity`. -/
def restoreStock (items : List OrderItem) (st : Stock) : Stock :=
  items.foldl
    (fun s item =>
      match item.variant with
      | some v => setStock s v (s v + item.quantity)
      | none => s)
    st

/-- JavaScript's `String.prototype.trim()`: strip whitespace from both ends
(kernel-computable, unlike `String.trim`). -/
def jsTrim (s : String) : String :=
  String.mk (((s.data.dropWhile Char.isWhitespace).reverse.dropWhile
      Char.isWhitespace).reverse)

/-- The timestamped note entry appended on a status change
(`Orders.jsx` line 223). -/
def noteEntry (newStatus : Status) (timestamp note : String) : String :=
  "\n[" ++ timestamp ++ "] Changed to " ++ newStatus.upper ++ ": " ++ note

/-- `confirmStatusUpdate` (`Orders.jsx` lines 203–240), the status-change
operation: if the target is `cancelled` and the order is not already
cancelled, run the stock-restoration loop; then write `status` and `notes`
(the prior notes, plus one timestamped entry when a non-blank note was
supplied) on the order row.  No transition validation is performed. -/
def confirmStatusUpdate (order : Order) (newStatus : Status)
    (note timestamp : String) (st : Stock) : Order × Stock :=
  let st' :=
    if newStatus = Status.cancelled ∧ order.status ≠ Status.cancelled then
      restoreStock order.items st
    else st
  let updatedNotes :=
    if jsTrim note = "" then order.notes
    else order.notes ++ noteEntry newStatus timestamp note
  ({ order with status := newStatus, notes := updatedNotes }, st')

/-- The transition table of spec §4.2 (allowed `from → to` pairs). -/
def specAllowed : Status → Status → Bool
  | .pending, .confirmed => true
  | .pending, .cancelled => true
  | .confirmed, .processing => true
  | .confirmed, .cancelled => true
  | .processing, .shipped => true
  | .processing, .cancelled => true
  | .shipped, .delivered => true
  | .shipped, .cancelled => true
  | _, _ => false

/-- The status targets offered by the UI for an order in a given status
(`renderActionButtons`, `Orders.jsx` lines 265–278): terminal states offer
none; every other state offers its single forward step plus the
ever-present cancel button. -/
def offeredActions : Status → List Status
  | .cancelled => []
  | .delivered => []
  | .pending => [.confirmed, .cancelled]
  | .confirmed => [.processing, .cancelled]
  | .processing => [.shipped, .cancelled]
  | .shipped => [.delivered, .cancelled]

/-- A product row as returned by the inventory search of `AddProduct.jsx`
(`id, name, price, sale_price, is_on_sale, ...`). -/
structure Product where
  id : Nat
  name : String
  price : ℚ
  sale_price : ℚ
  is_on_sale : Bool
deriving DecidableEq, Repr

/-- A variant row as returned by the inventory search of `AddProduct.jsx`
(`id, size, color, stock_quantity`). -/
structure Variant where
  id : Nat
  stock_quantity : Int
  size : String
  color : String
deriving DecidableEq, Repr

/-- One entry of the ephemeral cart built by `addToCart`
(`AddProduct.jsx` lines 995–1005): `max_stock` is the variant's
`stock_quantity` captured at the time of the add. -/
structure CartItem where
  product_id : Nat
  variant_id : Nat
  name : String
  price : ℚ
  size : String
  color : String
  qty : Int
  max_stock : Int
deriving DecidableEq, Repr

/-- `addToCart(product, variant)` (`AddProduct.jsx` lines 983–1009):
reject an out-of-stock variant; if the variant is already in the cart,
increment its quantity unless `existing.qty + 1` exceeds the
`stock_quantity` carried by this call's `variant` argument; otherwise append
a new entry with quantity 1, the effective unit price (`sale_price` when
`is_on_sale`, else `price`) and the presented stock as `max_stock`. -/
def addToCart (cart : List CartItem) (product : Product) (variant : Variant) :
    List CartItem :=
  if variant.stock_quantity ≤ 0 then cart
  else
    match cart.find? (fun item => item.variant_id = variant.id) with
    | some existing =>
        if existing.qty + 1 > variant.stock_quantity then cart
        else
          cart.map (fun item =>
            if item.variant_id = variant.id then { item with qty := item.qty + 1 }
            else item)
    | none =>
        cart ++ [{ product_id := product.id
                   variant_id := variant.id
                   name := product.name
                   price := if product.is_on_sale then product.sale_price else product.price
                   size := variant.size
                   color := variant.color
                   qty := 1
                   max_stock := variant.stock_quantity }]

/-- `removeFromCart(variantId)` (`AddProduct.jsx` lines 1011–1013). -/
def removeFromCart (cart : List CartItem) (variantId : Nat) : List CartItem :=
  cart.filter (fun item => ¬ item.variant_id = variantId)

/-- The per-entry body of `updateQty` (`AddProduct.jsx` lines 1016–1024):
a new quantity above the entry's captured `max_stock`, or below 1, leaves
the entry unchanged. -/
def updateQtyItem (variantId : Nat) (delta : Int) (item : CartItem) : CartItem :=
  if item.variant_id = variantId then
    let newQty := item.qty + delta
    if newQty > item.max_stock then item
    else if newQty < 1 then item
    else { item with qty := newQty }
  else item

/-- `updateQty(variantId, delta)` (`AddProduct.jsx` lines 1015–1025). -/
def updateQty (cart : List CartItem) (variantId : Nat) (delta : Int) :
    List CartItem :=
  cart.map (updateQtyItem variantId delta)

/-- `cartTotal` (`AddProduct.jsx` line 1027):
`cart.reduce((sum, item) => sum + item.price * item.qty, 0)`. -/
def cartTotal (cart : List CartItem) : ℚ :=
  cart.foldl (fun sum item => sum + item.price * (item.qty : ℚ)) 0

/-- The customer form state of `AddProduct.jsx`. -/
structure Customer where
  name : String
  phone : String
  payment_method : String
  notes : String
deriving DecidableEq, Repr

/-- The validation failures of `handleCreateOrder` (`AddProduct.jsx`
lines 1031–1032); these are the only error exits the handler has before
its supabase calls — there is no insufficient-stock case. -/
inductive OrderError where
  | emptyCart
  | missingCustomerFields
deriving DecidableEq, Repr

/-- The `order_items` row built from a cart entry
(`AddProduct.jsx` lines 1055–1060). -/
def toOrderItem (item : CartItem) : OrderItem :=
  { variant := some item.variant_id
    quantity := item.qty
    price_at_purchase := item.price }

/-- The `orders` row inserted by `handleCreateOrder` (step A, lines
1037–1050), joined with the `order_items` rows of step B: status is
`confirmed`, `total_amount` is `cartTotal`. -/
def createdOrder (cart : List CartItem) (customer : Customer)
    (address : Address) (orderNumber : Nat) (createdAt : String) : Order :=
  { id := orderNumber
    order_number := orderNumber
    customer_name := customer.name
    customer_phone := customer.phone
    shipping_address := address
    payment_method := customer.payment_method
    status := Status.confirmed
    total_amount := cartTotal cart
    notes := customer.notes
    created_at := createdAt
    items := cart.map toOrderItem }

/-- Step C of `handleCreateOrder` (`AddProduct.jsx` lines 1066–1071), the
stock write of order creation: for each cart entry, set the variant's
stock to `item.max_stock - item.qty` — the ceiling captured at add time
minus the quantity.  The live stock is neither read nor checked. -/
def reserveStockWrite (cart : List CartItem) (st : Stock) : Stock :=
  cart.foldl
    (fun s item => setStock s item.variant_id (item.max_stock - item.qty))
    st

/-- `handleCreateOrder` (`AddProduct.jsx` lines 1030–1083): reject an empty
cart, then missing customer name/phone; otherwise insert the order and its
items and run the stock write of step C.  Returns the persisted order and
the resulting stock map. -/
def handleCreateOrder (cart : List CartItem) (customer : Customer)
    (address : Address) (st : Stock) (orderNumber : Nat) (createdAt : String) :
    Except OrderError (Order × Stock) :=
  if cart = [] then Except.error OrderError.emptyCart
  else if customer.name = "" ∨ customer.phone = "" then
    Except.error OrderError.missingCustomerFields
  else
    Except.ok (createdOrder cart customer address orderNumber createdAt,
               reserveStockWrite cart st)

/-- Rejection of an empty selection by `generateManifest`
(`Orders.jsx` line 103: `toast.error("Select orders to print")`). -/
inductive ManifestError where
  | emptySelection
deriving DecidableEq, Repr

/-- The batch sheet produced by `generateManifest`: the selected order rows
and the batch grand total shown in the header. -/
structure Manifest where
  rows : List Order
  orderCount : Nat
  grandTotal : ℚ
deriving DecidableEq, Repr

/-- The orders matched by the current selection
(`Orders.jsx` line 105). -/
def selectedData (selectedOrderIds : List Nat) (orders : List Order) :
    List Order :=
  orders.filter (fun o => selectedOrderIds.contains o.id)

/-- The batch total (`Orders.jsx` line 109):
`selectedData.reduce((sum, o) => sum + (o.total_amount || 0), 0)`. -/
def totalBatchValue (sel : List Order) : ℚ :=
  sel.foldl (fun sum o => sum + o.total_amount) 0

/-- `generateManifest` (`Orders.jsx` lines 102–196): reject an empty
selection, otherwise build the printable batch sheet.  The function only
reads the order rows — no order or stock data is written. -/
def generateManifest (selectedOrderIds : List Nat) (orders : List Order) :
    Except ManifestError Manifest :=
  if selectedOrderIds.length = 0 then Except.error ManifestError.emptySelection
  else
    let sel := selectedData selectedOrderIds orders
    Except.ok { rows := sel, orderCount := sel.length,
                grandTotal := totalBatchValue sel }

/-- The early exits of `handleCategorySale` (`EditProduct.jsx` lines
680–682): no category selected, percentage outside (0,100), or the
operator declining the confirmation dialog. -/
inductive SaleError where
  | noCategorySelected
  | invalidPercentage
  | notConfirmed
deriving DecidableEq, Repr

/-- The payload of the `apply_category_discount` remote procedure call
(`EditProduct.jsx` line 685). -/
structure SaleRpc where
  categoryId : Nat
  percent : ℚ
deriving DecidableEq, Repr

/-- `handleCategorySale` (`EditProduct.jsx` lines 679–692): requires a
selected category, then `percent <= 0 || percent >= 100` is rejected as an
invalid percentage before anything else runs; with a valid percentage and a
confirmed dialog, the bulk discount RPC is issued for the category. -/
def handleCategorySale (selectedCat : Option Nat) (percent : ℚ)
    (confirmed : Bool) : Except SaleError SaleRpc :=
  match selectedCat with
  | none => Except.error SaleError.noCategorySelected
  | some cat =>
      if percent ≤ 0 ∨ 100 ≤ percent then Except.error SaleError.invalidPercentage
      else if confirmed then Except.ok { categoryId := cat, percent := percent }
      else Except.error SaleError.notConfirmed

/-- A stock-affecting operation: the stock write of order creation
(`handleCreateOrder` step C) or the restoration loop of a cancellation
(`confirmStatusUpdate`). -/
inductive StockOp where
  | reserve (cart : List CartItem)
  | restore (items : List OrderItem)

/-- Apply one stock-affecting operation to the stock map. -/
def applyStockOp (st : Stock) : StockOp → Stock
  | .reserve cart => reserveStockWrite cart st
  | .restore items => restoreStock items st

/-- Apply a sequence of stock-affecting operations. -/
def runStockOps (st : Stock) (ops : List StockOp) : Stock :=
  ops.foldl applyStockOp st

/-- A cart-editing operation of the order-composition screen. -/
inductive CartOp where
  | add (product : Product) (variant : Variant)
  | upd (variantId : Nat) (delta : Int)
  | rem (variantId : Nat)

/-- Apply one cart-editing operation. -/
def applyCartOp (cart : List CartItem) : CartOp → List CartItem
  | .add product variant => addToCart cart product variant
  | .upd variantId delta => updateQty cart variantId delta
  | .rem variantId => removeFromCart cart variantId

/-- Run a sequence of cart-editing operations from the empty cart. -/
def runCartOps (ops : List CartOp) : List CartItem :=
  ops.foldl applyCartOp []

/-- The per-entry cart invariant claimed by the spec:
`1 ≤ qty ≤ max_stock`. -/
def CartInv (cart : List CartItem) : Prop :=
  ∀ item ∈ cart, 1 ≤ item.qty ∧ item.qty ≤ item.max_stock

instance (cart : List CartItem) : Decidable (CartInv cart) :=
  List.decidableBAll _ cart

/-- An add step is consistent when, for a variant already in the cart, the
stock quantity it presents does not exceed the ceiling captured when the
entry was added (true in particular when the live stock has not changed in
between); update and remove steps are unconstrained. -/
def consistentOp (cart : List CartItem) : CartOp → Bool
  | .add _ variant =>
      cart.all (fun item =>
        item.variant_id ≠ variant.id ∨ variant.stock_quantity ≤ item.max_stock)
  | .upd _ _ => true
  | .rem _ => true

/-- A sequence of cart operations is consistent when each step is, in the
cart state it is applied to. -/
def consistentOps : List CartItem → List CartOp → Bool
  | _, [] => true
  | cart, op :: ops => consistentOp cart op && consistentOps (applyCartOp cart op) ops

/-! ### Helper lemmas -/

/-- A `reduce`-style running sum equals the sum of the mapped list. -/
lemma foldl_add_map {α : Type} (f : α → ℚ) :
    ∀ (l : List α) (a : ℚ), l.foldl (fun s i => s + f i) a = a + (l.map f).sum
  | [], a => by simp
  | x :: xs, a => by
      simp only [List.foldl_cons, List.map_cons, List.sum_cons]
      rw [foldl_add_map f xs (a + f x)]
      ring

/-- The total quantity the cancellation loop adds back to variant `v`. -/
def restoredQty (items : List OrderItem) (v : Nat) : Int :=
  (items.map (fun i => if i.variant = some v then i.quantity else 0)).sum

/-- The stock-restoration loop increments each variant by exactly the summed
quantities of the line items that reference it. -/
lemma restoreStock_apply :
    ∀ (items : List OrderItem) (st : Stock) (v : Nat),
      restoreStock items st v = st v + restoredQty items v
  | [], st, v => by simp [restoreStock, restoredQty]
  | i :: is, st, v => by
      have step :
          restoreStock (i :: is) st
            = restoreStock is
                (match i.variant with
                 | some w => setStock st w (st w + i.quantity)
                 | none => st) := by
        cases h : i.variant <;> simp [restoreStock, h]
      rw [step, restoreStock_apply is]
      cases h : i.variant with
      | none => simp [restoredQty, h]
      | some w =>
          by_cases hv : v = w

          · subst hv
            simp [restoredQty, h, setStock]
            ring
          · simp [restoredQty, h, setStock, hv, Ne.symm hv]

/-- Variants not in the cart are untouched by the stock write of order
creation. -/
lemma reserveStockWrite_not_mem :
    ∀ (cart : List CartItem) (st : Stock) (v : Nat),
      v ∉ cart.map (fun i => i.variant_id) → reserveStockWrite cart st v = st v
  | [], st, v, _ => rfl
  | i :: is, st, v, h => by
      simp only [List.map_cons, List.mem_cons, not_or] at h
      have step : reserveStockWrite (i :: is) st
          = reserveStockWrite is (setStock st i.variant_id (i.max_stock - i.qty)) := by
        simp [reserveStockWrite]
      rw [step, reserveStockWrite_not_mem is _ v h.2]
      simp [setStock, h.1]

/-- With distinct cart variants, the stock write of order creation sets each
entry's variant to `max_stock - qty`, whatever the prior stock map was. -/
lemma reserveStockWrite_mem :
    ∀ (cart : List CartItem), (cart.map (fun i => i.variant_id)).Nodup →
      ∀ item ∈ cart, ∀ st : Stock,
        reserveStockWrite cart st item.variant_id = item.max_stock - item.qty
  | [], _, item, him, st => by cases him
  | i :: is, hnd, item, him, st => by
      simp only [List.map_cons, List.nodup_cons] at hnd
      have step : reserveStockWrite (i :: is) st
          = reserveStockWrite is (setStock st i.variant_id (i.max_stock - i.qty)) := by
        simp [reserveStockWrite]
      rcases List.mem_cons.mp him with rfl | hmem
      · rw [step, reserveStockWrite_not_mem is _ _ hnd.1]
        simp [setStock]
      · rw [step, reserveStockWrite_mem is hnd.2 item hmem]

/-- Strengthened cart wellformedness: the per-entry quantity bounds plus
distinctness of the entries' variant ids (which `addToCart` maintains by
only appending a variant that `find?` did not locate). -/
def CartWF (cart : List CartItem) : Prop :=
  CartInv cart ∧ (cart.map (fun i => i.variant_id)).Nodup

/-- Mapping an entry-wise function that fixes `variant_id` fixes the list of
variant ids. -/
lemma map_ids_of_preserve (f : CartItem → CartItem)
    (hf : ∀ i, (f i).variant_id = i.variant_id) (cart : List CartItem) :
    (cart.map f).map (fun i => i.variant_id) = cart.map (fun i => i.variant_id) := by
  rw [List.map_map]
  exact List.map_congr_left (fun i _ => hf i)

/-- One consistent cart-editing step preserves wellformedness. -/
lemma cartWF_step (cart : List CartItem) (op : CartOp)
    (hwf : CartWF cart) (hop : consistentOp cart op = true) :
    CartWF (applyCartOp cart op) := by
  obtain ⟨hinv, hnd⟩ := hwf
  cases op with
  | add product variant =>
      simp only [consistentOp, List.all_eq_true, decide_eq_true_eq] at hop
      simp only [applyCartOp, addToCart]
      by_cases hzero : variant.stock_quantity ≤ 0
      · simp only [if_pos hzero]; exact ⟨hinv, hnd⟩
      · simp only [if_neg hzero]
        cases hfind : cart.find? (fun item => item.variant_id = variant.id) with
        | none =>
            constructor
            · intro item him
              rcases List.mem_append.mp him with hold | hnew
              · exact hinv item hold
              · simp only [List.mem_singleton] at hnew
                subst hnew
                refine ⟨le_refl 1, ?_⟩
                simpa using Int.not_le.mp hzero
            · have hnotin : variant.id ∉ cart.map (fun i => i.variant_id) := by
                intro hmem
                rcases List.mem_map.mp hmem with ⟨item, him, hid⟩
                have := List.find?_eq_none.mp hfind item him
                simp [hid] at this
              simpa [List.nodup_append, hnotin] using hnd
        | some existing =>
            have hex_mem : existing ∈ cart := List.mem_of_find?_eq_some hfind
            have hex_id : existing.variant_id = variant.id := by
              have := List.find?_some hfind
              simpa using this
            by_cases hcap : existing.qty + 1 > variant.stock_quantity
            · simp only [if_pos hcap]; exact ⟨hinv, hnd⟩
            · simp only [if_neg hcap]
              constructor
              · intro item him
                rcases List.mem_map.mp him with ⟨i, hi_mem, hi_eq⟩
                by_cases hid : i.variant_id = variant.id
                · have hieq : i = existing :=
                    List.inj_on_of_nodup_map hnd hi_mem hex_mem
                      (by rw [hid, hex_id])
                  subst hieq
                  rw [← hi_eq]
                  simp only [if_pos hid]
                  have h1 : 1 ≤ i.qty := (hinv i hi_mem).1
                  have hstock : variant.stock_quantity ≤ i.max_stock := by
                    rcases hop i hi_mem with hne | hle
                    · exact absurd hid hne
                    · exact hle
                  have hcap' : i.qty + 1 ≤ variant.stock_quantity :=
                    Int.not_lt.mp hcap
                  exact ⟨by omega, by omega⟩
                · rw [← hi_eq]
                  simp only [if_neg hid]
                  exact hinv i hi_mem
              · rw [map_ids_of_preserve]
                · exact hnd
                · intro i
                  by_cases hid : i.variant_id = variant.id <;> simp [hid]
  | upd variantId delta =>
      simp only [applyCartOp, updateQty]
      constructor
      · intro item him
        rcases List.mem_map.mp him with ⟨i, hi_mem, hi_eq⟩
        subst hi_eq
        unfold updateQtyItem
        by_cases hid : i.variant_id = variantId
        · simp only [if_pos hid]
          by_cases hover : i.qty + delta > i.max_stock
          · simp only [if_pos hover]; exact hinv i hi_mem
          · simp only [if_neg hover]
            by_cases hunder : i.qty + delta < 1
            · simp only [if_pos hunder]; exact hinv i hi_mem
            · simp only [if_neg hunder]
              exact ⟨by omega, by omega⟩
        · simp only [if_neg hid]
          exact hinv i hi_mem
      · rw [map_ids_of_preserve]
        · exact hnd
        · intro i
          unfold updateQtyItem
          by_cases hid : i.variant_id = variantId
          · simp only [if_pos hid]
            by_cases hover : i.qty + delta > i.max_stock
            · simp [hover]
            · by_cases hunder : i.qty + delta < 1 <;> simp [hover, hunder]
          · simp [hid]
  | rem variantId =>
      simp only [applyCartOp, removeFromCart]
      constructor
      · intro item him
        exact hinv item (List.mem_of_mem_filter him)
      · exact ((List.filter_sublist cart).map _).nodup hnd

/-- Consistent sequences of cart edits preserve wellformedness. -/
lemma cartWF_ops :
    ∀ (ops : List CartOp) (cart : List CartItem), CartWF cart →
      consistentOps cart ops = true → CartWF (ops.foldl applyCartOp cart)
  | [], cart, hwf, _ => hwf
  | op :: ops, cart, hwf, hc => by
      simp only [consistentOps, Bool.and_eq_true] at hc
      exact cartWF_ops ops (applyCartOp cart op) (cartWF_step cart op hwf hc.1) hc.2

/-! ### Concrete sample data used by witnesses and counterexamples -/

/-- A sample shipping address. -/
def addrSample : Address :=
  { street := "12 MG Road", city := "Lucknow", state := "UP",
    zip := "226001", country := "India" }

/-- A sample customer with name and phone present. -/
def custSample : Customer :=
  { name := "Asha", phone := "9876543210", payment_method := "upi", notes := "" }

/-- All-zero stock map. -/
def stockZero : Stock := fun _ => 0

/-- Constant stock map with five units everywhere. -/
def stockFive : Stock := fun _ => 5

/-- Constant stock map with one unit everywhere. -/
def stockOne : Stock := fun _ => 1

/-- Live stock for the spec's two-variant scenario: variant 7 has five
units, variant 8 has none. -/
def stockVW : Stock := fun v => if v = 7 then 5 else 0

/-- An order already delivered (terminal state). -/
def orderDelivered : Order :=
  { id := 1, order_number := 101, customer_name := "Asha",
    customer_phone := "9876543210", shipping_address := addrSample,
    payment_method := "upi", status := Status.delivered, total_amount := 500,
    notes := "", created_at := "2025-01-01",
    items := [{ variant := some 7, quantity := 3, price_at_purchase := 100 }] }

/-- An order in `shipped` with a single line item of three units of
variant 7 (the spec's §8 cancellation scenario). -/
def orderShipped : Order :=
  { id := 2, order_number := 102, customer_name := "Meera",
    customer_phone := "9123456780", shipping_address := addrSample,
    payment_method := "cod", status := Status.shipped, total_amount := 250,
    notes := "", created_at := "2025-01-02",
    items := [{ variant := some 7, quantity := 3, price_at_purchase := 100 }] }

/-- The spec's §8 insufficient-stock scenario cart: two units of variant 7
(added when its stock was five) and one unit of variant 8 (added when its
stock read one, though it is now zero). -/
def cartVW : List CartItem :=
  [{ product_id := 10, variant_id := 7, name := "Kurta V", price := 500,
     size := "M", color := "Blue", qty := 2, max_stock := 5 },
   { product_id := 11, variant_id := 8, name := "Kurta W", price := 300,
     size := "S", color := "Red", qty := 1, max_stock := 1 }]

/-- A one-entry cart whose captured ceiling (5) is stale: the live stock of
variant 7 has meanwhile dropped to one unit. -/
def cartC4 : List CartItem :=
  [{ product_id := 10, variant_id := 7, name := "Kurta V", price := 500,
     size := "M", color := "Blue", qty := 2, max_stock := 5 }]

/-- A sample product (not on sale). -/
def sampleProduct : Product :=
  { id := 1, name := "Kurta", price := 1000, sale_price := 800,
    is_on_sale := false }

/-- Variant 7 as presented while it had one unit in stock. -/
def variantS1 : Variant :=
  { id := 7, stock_quantity := 1, size := "M", color := "Blue" }

/-- Variant 7 as presented again after its stock rose to three units. -/
def variantS3 : Variant :=
  { id := 7, stock_quantity := 3, size := "M", color := "Blue" }

/-- The cart-op sequence that breaks the quantity/ceiling bound: add
variant 7 while one unit is in stock, then add it again after the stock
rose to three. -/
def bugOps : List CartOp :=
  [CartOp.add sampleProduct variantS1, CartOp.add sampleProduct variantS3]

/-! ### C1 — transition validation -/

/-- C1 (amended): the status-change operation `confirmStatusUpdate` performs
no transition validation — for every order and every requested status it
simply writes the requested status (there is no `InvalidTransitionError`
path); the transition table of §4.2 is enforced only by the UI layer, whose
offered actions (`renderActionButtons`) coincide exactly with the allowed
set for every state. -/
theorem transition_unvalidated_but_ui_matches_table :
    (∀ s t : Status, t ∈ offeredActions s ↔ specAllowed s t = true)
    ∧ ∀ (o : Order) (t : Status) (note ts : String) (st : Stock),
        (confirmStatusUpdate o t note ts st).1.status = t :=
  ⟨by decide, fun _ _ _ _ _ => rfl⟩

/-- C1 counterexample: `delivered → confirmed` is outside the allowed set,
yet `confirmStatusUpdate` applies it — the order's status does not stay
`delivered` and no error is returned. -/
theorem transition_invalid_pair_applied :
    specAllowed Status.delivered Status.confirmed = false
    ∧ orderDelivered.status = Status.delivered
    ∧ (confirmStatusUpdate orderDelivered Status.confirmed "" "t" stockZero).1.status
        ≠ orderDelivered.status := by
  refine ⟨rfl, rfl, ?_⟩
  intro h
  exact Status.noConfusion h

/-! ### C7 — frame: only status and notes are written -/

/-- C7: a status change writes only `status` and `notes`: every other order
field is unchanged, and the new notes value is the prior notes with (when a
non-blank note was supplied) exactly one timestamped entry appended — the
prior notes are always a prefix of the new value. -/
theorem transition_frame_only_status_notes (o : Order) (t : Status)
    (note ts : String) (st : Stock) :
    (confirmStatusUpdate o t note ts st).1.customer_name = o.customer_name
    ∧ (confirmStatusUpdate o t note ts st).1.customer_phone = o.customer_phone
    ∧ (confirmStatusUpdate o t note ts st).1.shipping_address = o.shipping_address
    ∧ (confirmStatusUpdate o t note ts st).1.payment_method = o.payment_method
    ∧ (confirmStatusUpdate o t note ts st).1.total_amount = o.total_amount
    ∧ (confirmStatusUpdate o t note ts st).1.order_number = o.order_number
    ∧ (confirmStatusUpdate o t note ts st).1.created_at = o.created_at
    ∧ (confirmStatusUpdate o t note ts st).1.id = o.id
    ∧ (confirmStatusUpdate o t note ts st).1.items = o.items
    ∧ (confirmStatusUpdate o t note ts st).1.notes
        = o.notes ++ (if jsTrim note = "" then "" else noteEntry t ts note) := by
  refine ⟨rfl, rfl, rfl, rfl, rfl, rfl, rfl, rfl, rfl, ?_⟩
  by_cases h : jsTrim note = ""
  · simp [confirmStatusUpdate, h, String.append_empty]
  · simp [confirmStatusUpdate, h]

/-! ### C2 — cancellation restores stock exactly once -/

/-- C2 (amended): cancelling a not-yet-cancelled order increases each
variant's stock by exactly the summed quantities of the order's line items
referencing it, and a second cancellation attempt restores nothing again
(the `order.status !== 'cancelled'` guard): restoration happens exactly
once.  The second attempt, however, does not fail with
`InvalidTransitionError` — the operation simply runs its success path
again. -/
theorem cancel_restores_stock_exactly_once (o : Order) (st : Stock)
    (n₁ t₁ n₂ t₂ : String) (h : o.status ≠ Status.cancelled) :
    (∀ v, (confirmStatusUpdate o Status.cancelled n₁ t₁ st).2 v
          = st v + restoredQty o.items v)
    ∧ (confirmStatusUpdate o Status.cancelled n₁ t₁ st).1.status = Status.cancelled
    ∧ (confirmStatusUpdate (confirmStatusUpdate o Status.cancelled n₁ t₁ st).1
          Status.cancelled n₂ t₂ (confirmStatusUpdate o Status.cancelled n₁ t₁ st).2).2
        = (confirmStatusUpdate o Status.cancelled n₁ t₁ st).2 := by
  refine ⟨?_, rfl, ?_⟩
  · intro v
    simp only [confirmStatusUpdate, ne_eq, true_and]
    rw [if_pos h]
    exact restoreStock_apply o.items st v
  · simp [confirmStatusUpdate]

/-- C2 witness: the §8 scenario — a shipped order with one line item of
three units of variant 7, cancelled over a stock map holding five units:
the stock at variant 7 becomes `5 + 3`. -/
theorem cancel_restores_stock_exactly_once_witness :
    orderShipped.status ≠ Status.cancelled
    ∧ (confirmStatusUpdate orderShipped Status.cancelled "" "t1" stockFive).2 7
        = stockFive 7 + restoredQty orderShipped.items 7
    ∧ stockFive 7 + restoredQty orderShipped.items 7 = 8 :=
  ⟨by decide,
   (cancel_restores_stock_exactly_once orderShipped stockFive "" "t1" "" "t2"
      (by decide)).1 7,
   by decide⟩

/-- C2 counterexample: a second cancellation attempt on an already-cancelled
order does not fail — it runs to completion, writing the order row again
(here appending a second note), instead of returning
`InvalidTransitionError`. -/
theorem second_cancel_attempt_not_rejected :
    (confirmStatusUpdate (confirmStatusUpdate orderShipped Status.cancelled "" "t1" stockFive).1
        Status.cancelled "second attempt" "t2"
        (confirmStatusUpdate orderShipped Status.cancelled "" "t1" stockFive).2).1.status
      = Status.cancelled
    ∧ (confirmStatusUpdate (confirmStatusUpdate orderShipped Status.cancelled "" "t1" stockFive).1
        Status.cancelled "second attempt" "t2"
        (confirmStatusUpdate orderShipped Status.cancelled "" "t1" stockFive).2).1.notes
      ≠ (confirmStatusUpdate orderShipped Status.cancelled "" "t1" stockFive).1.notes := by
  constructor
  · rfl
  · decide

/-! ### C3 — no insufficient-stock failure path in order creation -/

/-- C3 (amended): `handleCreateOrder` validates only that the cart is
non-empty and that customer name and phone are present (an empty cart is
rejected with a validation error and nothing is persisted); once those
pass, creation always succeeds regardless of live stock — the order and its
items are persisted and each cart variant's stock is overwritten to
`max_stock - qty`, variants outside the cart keeping their stock.  There is
no `InsufficientStockError` and no rollback path. -/
theorem create_order_no_stock_failure_path (cart : List CartItem)
    (customer : Customer) (address : Address) (st : Stock) (n : Nat)
    (ts : String) (hcart : cart ≠ []) (hname : customer.name ≠ "")
    (hphone : customer.phone ≠ "") :
    handleCreateOrder cart customer address st n ts
      = Except.ok (createdOrder cart customer address n ts,
                   reserveStockWrite cart st)
    ∧ (∀ v, v ∉ cart.map (fun i => i.variant_id) →
        reserveStockWrite cart st v = st v)
    ∧ handleCreateOrder [] customer address st n ts
        = Except.error OrderError.emptyCart := by
  refine ⟨?_, ?_, rfl⟩
  · simp [handleCreateOrder, hcart, hname, hphone]
  · intro v hv
    exact reserveStockWrite_not_mem cart st v hv

/-- C3 witness: the success path at the §8 scenario cart. -/
theorem create_order_no_stock_failure_path_witness :
    cartVW ≠ [] ∧ custSample.name ≠ "" ∧ custSample.phone ≠ ""
    ∧ handleCreateOrder cartVW custSample addrSample stockVW 1 "2025-01-03"
        = Except.ok (createdOrder cartVW custSample addrSample 1 "2025-01-03",
                     reserveStockWrite cartVW stockVW) :=
  ⟨by decide, by decide, by decide,
   (create_order_no_stock_failure_path cartVW custSample addrSample stockVW 1
      "2025-01-03" (by decide) (by decide) (by decide)).1⟩

/-- C3 counterexample: the spec's §8 scenario — a cart of two units of
variant 7 (live stock 5) and one unit of variant 8 (live stock 0).  The
claim demands `InsufficientStockError{variantId: 8}` with variant 7's stock
left at 5; the code instead succeeds and writes variant 7's stock to 3. -/
theorem create_order_partial_deduction_despite_shortfall :
    stockVW 8 = 0
    ∧ handleCreateOrder cartVW custSample addrSample stockVW 1 "2025-01-03"
        = Except.ok (createdOrder cartVW custSample addrSample 1 "2025-01-03",
                     reserveStockWrite cartVW stockVW)
    ∧ reserveStockWrite cartVW stockVW 7 = 3
    ∧ ¬ reserveStockWrite cartVW stockVW 7 = 5 := by
  refine ⟨rfl, rfl, by decide, by decide⟩

/-! ### C4 — reservation ignores live stock -/

/-- C4 (amended): the stock write of order creation performs no live-stock
re-validation and no decrement of live stock: for every cart (with distinct
variants) and *every* stock map — the result does not depend on the live
stock at all — each entry's variant is set to `max_stock - qty`, the
ceiling captured when the item was added to the cart minus the quantity. -/
theorem reserve_writes_ceiling_minus_qty (cart : List CartItem)
    (hnd : (cart.map (fun i => i.variant_id)).Nodup) :
    ∀ item ∈ cart, ∀ st : Stock,
      reserveStockWrite cart st item.variant_id = item.max_stock - item.qty :=
  fun item him st => reserveStockWrite_mem cart hnd item him st

/-- C4 witness: the one-entry stale cart over the one-unit stock map. -/
theorem reserve_writes_ceiling_minus_qty_witness :
    (cartC4.map (fun i => i.variant_id)).Nodup
    ∧ reserveStockWrite cartC4 stockOne 7 = 5 - 2 :=
  ⟨by decide,
   reserve_writes_ceiling_minus_qty cartC4 (by decide)
     { product_id := 10, variant_id := 7, name := "Kurta V", price := 500,
       size := "M", color := "Blue", qty := 2, max_stock := 5 }
     (by decide) stockOne⟩

/-- C4 counterexample: live stock of variant 7 is 1 while the entry requests
2 units — the claimed check `currentStock >= quantity` fails (1 < 2), yet
order creation succeeds; and the written stock is `max_stock - qty = 3`,
not the claimed live-stock decrement `1 - 2`. -/
theorem reserve_ignores_live_stock :
    stockOne 7 = 1 ∧ (1 : Int) < 2
    ∧ handleCreateOrder cartC4 custSample addrSample stockOne 1 "2025-01-04"
        = Except.ok (createdOrder cartC4 custSample addrSample 1 "2025-01-04",
                     reserveStockWrite cartC4 stockOne)
    ∧ reserveStockWrite cartC4 stockOne 7 = 3
    ∧ ¬ reserveStockWrite cartC4 stockOne 7 = stockOne 7 - 2 := by
  refine ⟨rfl, by decide, rfl, by decide, by decide⟩

/-! ### C5 — stock can go negative (code bug) -/

/-- C5 (code bug, failing input): starting from one unit of variant 7,
add it to the cart (ceiling 1 captured); a cancellation restores two units
(stock rises to 3); the operator searches again and re-adds the variant —
`addToCart` checks the increment against the freshly presented stock (3),
not the captured ceiling (1), so the entry reaches `qty = 2, max_stock = 1`;
order creation then writes `max_stock - qty = -1`: the invariant "stock is
never negative" is violated by this purely sequential run. -/
theorem stock_goes_negative_on_stale_ceiling :
    runCartOps bugOps
      = [{ product_id := 1, variant_id := 7, name := "Kurta", price := 1000,
           size := "M", color := "Blue", qty := 2, max_stock := 1 }]
    ∧ runStockOps stockOne
        [StockOp.restore [{ variant := some 7, quantity := 2,
                            price_at_purchase := 100 }],
         StockOp.reserve (runCartOps bugOps)] 7 = -1
    ∧ runStockOps stockOne
        [StockOp.restore [{ variant := some 7, quantity := 2,
                            price_at_purchase := 100 }],
         StockOp.reserve (runCartOps bugOps)] 7 < 0 := by
  refine ⟨by decide, rfl, by decide⟩

/-! ### C6 — total amount equals the line-item sum, never recomputed -/

/-- C6: at creation the persisted `total_amount` equals the sum over the
order's line items of `quantity * price_at_purchase`; each line item's
price is the unit price captured when the entry was added to the cart
(sale price when the product is on sale, else the base price); and no
later status change rewrites `total_amount` or the line items. -/
theorem order_total_equals_line_item_sum :
    (∀ (cart : List CartItem) (customer : Customer) (address : Address)
        (n : Nat) (ts : String),
      ((createdOrder cart customer address n ts).items.map
          (fun i => i.price_at_purchase * (i.quantity : ℚ))).sum
        = (createdOrder cart customer address n ts).total_amount)
    ∧ (∀ (cart : List CartItem) (product : Product) (variant : Variant),
        ¬ variant.stock_quantity ≤ 0 →
        cart.find? (fun item => item.variant_id = variant.id) = none →
        (addToCart cart product variant).getLast?
          = some { product_id := product.id
                   variant_id := variant.id
                   name := product.name
                   price := if product.is_on_sale then product.sale_price
                            else product.price
                   size := variant.size
                   color := variant.color
                   qty := 1
                   max_stock := variant.stock_quantity })
    ∧ ∀ (o : Order) (t : Status) (note ts : String) (st : Stock),
        (confirmStatusUpdate o t note ts st).1.total_amount = o.total_amount
        ∧ (confirmStatusUpdate o t note ts st).1.items = o.items := by
  refine ⟨?_, ?_, fun _ _ _ _ _ => ⟨rfl, rfl⟩⟩
  · intro cart customer address n ts
    show ((cart.map toOrderItem).map
        (fun i => i.price_at_purchase * (i.quantity : ℚ))).sum = cartTotal cart
    rw [List.map_map]
    have := foldl_add_map (fun i : CartItem => i.price * (i.qty : ℚ)) cart 0
    rw [cartTotal, this, zero_add]
    rfl
  · intro cart product variant hstock hfind
    simp only [addToCart, if_neg hstock, hfind]
    exact List.getLast?_concat _

/-- C6 witness: the hypotheses of the captured-price conjunct hold at the
empty cart with the sample (not on sale) product and variant. -/
theorem order_total_equals_line_item_sum_witness :
    (¬ variantS3.stock_quantity ≤ 0
      ∧ ([] : List CartItem).find? (fun item => item.variant_id = variantS3.id)
          = none)
    ∧ (addToCart [] sampleProduct variantS3).getLast?
        = some { product_id := sampleProduct.id
                 variant_id := variantS3.id
                 name := sampleProduct.name
                 price := if sampleProduct.is_on_sale then sampleProduct.sale_price
                          else sampleProduct.price
                 size := variantS3.size
                 color := variantS3.color
                 qty := 1
                 max_stock := variantS3.stock_quantity }
    ∧ ((createdOrder cartVW custSample addrSample 1 "ts").items.map
          (fun i => i.price_at_purchase * (i.quantity : ℚ))).sum
        = (createdOrder cartVW custSample addrSample 1 "ts").total_amount :=
  ⟨⟨by decide, by decide⟩,
   order_total_equals_line_item_sum.2.1 [] sampleProduct variantS3
     (by decide) (by decide),
   order_total_equals_line_item_sum.1 cartVW custSample addrSample 1 "ts"⟩

/-! ### C8 — manifest builder -/

/-- C8: `generateManifest` rejects an empty selection, and for a non-empty
selection builds (read-only — it takes the order rows and returns only a
document) a manifest whose grand total is the sum of the selected orders'
`total_amount`. -/
theorem manifest_rejects_empty_and_sums_totals (selectedOrderIds : List Nat)
    (orders : List Order) (h : selectedOrderIds ≠ []) :
    generateManifest [] orders = Except.error ManifestError.emptySelection
    ∧ generateManifest selectedOrderIds orders
        = Except.ok { rows := selectedData selectedOrderIds orders
                      orderCount := (selectedData selectedOrderIds orders).length
                      grandTotal := totalBatchValue
                        (selectedData selectedOrderIds orders) }
    ∧ totalBatchValue (selectedData selectedOrderIds orders)
        = ((selectedData selectedOrderIds orders).map
            (fun o => o.total_amount)).sum := by
  refine ⟨rfl, ?_, ?_⟩
  · have hlen : ¬ selectedOrderIds.length = 0 := by
      simpa [List.length_eq_zero] using h
    simp [generateManifest, hlen]
  · have := foldl_add_map (fun o : Order => o.total_amount)
      (selectedData selectedOrderIds orders) 0
    rw [totalBatchValue, this, zero_add]

/-- C8 witness: selecting the two sample orders (totals 500 and 250) yields
a grand total of 750. -/
theorem manifest_rejects_empty_and_sums_totals_witness :
    ([1, 2] : List Nat) ≠ []
    ∧ generateManifest [1, 2] [orderDelivered, orderShipped]
        = Except.ok { rows := selectedData [1, 2] [orderDelivered, orderShipped]
                      orderCount := (selectedData [1, 2]
                        [orderDelivered, orderShipped]).length
                      grandTotal := totalBatchValue
                        (selectedData [1, 2] [orderDelivered, orderShipped]) }
    ∧ totalBatchValue (selectedData [1, 2] [orderDelivered, orderShipped])
        = 750 :=
  ⟨by decide,
   (manifest_rejects_empty_and_sums_totals [1, 2] [orderDelivered, orderShipped]
      (by decide)).2.1,
   by norm_num [totalBatchValue, selectedData, orderDelivered, orderShipped]⟩

/-! ### C9 — category discount percentage gate -/

/-- C9: with a category selected, `handleCategorySale` rejects any
percentage outside the open interval (0,100) as a validation error before
anything is applied, and for any percentage strictly inside the interval
(dialog confirmed) it issues the bulk discount RPC for the category. -/
theorem discount_percent_gate (cat : Nat) (percent : ℚ) (confirmed : Bool) :
    ((percent ≤ 0 ∨ 100 ≤ percent) →
      handleCategorySale (some cat) percent confirmed
        = Except.error SaleError.invalidPercentage)
    ∧ (0 < percent → percent < 100 →
      handleCategorySale (some cat) percent true
        = Except.ok { categoryId := cat, percent := percent }) := by
  constructor
  · intro h
    simp [handleCategorySale, h]
  · intro h0 h100
    have h : ¬ (percent ≤ 0 ∨ 100 ≤ percent) := by
      push_neg
      exact ⟨h0, h100⟩
    simp [handleCategorySale, h]

/-- C9 witness: 150% is rejected, 20% issues the RPC. -/
theorem discount_percent_gate_witness :
    ((150 : ℚ) ≤ 0 ∨ (100 : ℚ) ≤ 150)
    ∧ handleCategorySale (some 3) 150 true
        = Except.error SaleError.invalidPercentage
    ∧ (0 : ℚ) < 20 ∧ (20 : ℚ) < 100
    ∧ handleCategorySale (some 3) 20 true
        = Except.ok { categoryId := 3, percent := 20 } :=
  ⟨Or.inr (by norm_num),
   (discount_percent_gate 3 150 true).1 (Or.inr (by norm_num)),
   by norm_num, by norm_num,
   (discount_percent_gate 3 20 true).2 (by norm_num) (by norm_num)⟩

/-! ### C10 — cart quantity invariant -/

/-- C10 (amended): along any sequence of cart edits from the empty cart in
which every re-add of a variant already in the cart presents a stock
quantity no larger than the entry's captured ceiling, every entry satisfies
`1 ≤ qty ≤ max_stock`; unconditionally, adding a variant with stock ≤ 0
leaves the cart unchanged, and an update whose new quantity would exceed
the captured ceiling or drop below 1 leaves the entry unchanged.  (Without
the consistency condition the bound can break: `addToCart` checks a re-add
against the freshly presented stock, not the captured ceiling.) -/
theorem cart_quantity_invariant (ops : List CartOp)
    (hc : consistentOps [] ops = true) :
    CartInv (runCartOps ops)
    ∧ (∀ (cart : List CartItem) (product : Product) (variant : Variant),
        variant.stock_quantity ≤ 0 → addToCart cart product variant = cart)
    ∧ (∀ (variantId : Nat) (delta : Int) (item : CartItem),
        item.variant_id = variantId →
        (item.max_stock < item.qty + delta ∨ item.qty + delta < 1) →
        updateQtyItem variantId delta item = item) := by
  refine ⟨?_, ?_, ?_⟩
  · exact (cartWF_ops ops [] ⟨fun _ h => absurd h (List.not_mem_nil _), by simp⟩
      hc).1
  · intro cart product variant h
    simp [addToCart, h]
  · intro variantId delta item hid hout
    unfold updateQtyItem
    by_cases hover : item.qty + delta > item.max_stock
    · simp [hid, hover]
    · rcases hout with h | hunder
      · exact absurd h hover
      · simp [hid, hover, hunder]

/-- C10 witness: adding the sample variant twice at the same presented
stock (3) is a consistent sequence; the resulting single entry has
`qty = 2 ≤ max_stock = 3`. -/
theorem cart_quantity_invariant_witness :
    consistentOps []
        [CartOp.add sampleProduct variantS3, CartOp.add sampleProduct variantS3]
      = true
    ∧ CartInv (runCartOps
        [CartOp.add sampleProduct variantS3, CartOp.add sampleProduct variantS3]) :=
  ⟨by decide,
   (cart_quantity_invariant
      [CartOp.add sampleProduct variantS3, CartOp.add sampleProduct variantS3]
      (by decide)).1⟩

/-- C10 counterexample: add variant 7 while its stock reads 1 (ceiling 1
captured), then add it again after its stock reads 3 — the re-add is
checked against the new stock, so the entry reaches `qty = 2` above its
captured ceiling `max_stock = 1`, breaking `qty ≤ max_stock`. -/
theorem cart_quantity_bound_broken_by_stale_ceiling :
    ¬ CartInv (runCartOps bugOps) := by
  decide

end Anokhi
